import Mathlib

/-!
Shallow embedding of `sync.py` from openwebui-knowledge-sync.

External collaborators (the shell, `urllib.parse`, `os.walk`, `os.makedirs`,
`open`, `requests`) are modelled as an `Oracle` of deterministic functions;
the filesystem is a list of existing path strings threaded through every
effectful function.  Exceptions are modelled with `Except`; Python's
per-function `try/except` blocks become explicit matches.
-/

set_option autoImplicit false

namespace Sync

/-- Python truthiness of an `os.getenv` result: `None` and `""` are falsy. -/
def pyTruthy : Option String → Bool
  | none => false
  | some s => !(s == "")

/-- Python `str.strip()`: drop whitespace from both ends. -/
def pyStrip (s : String) : String :=
  ⟨((s.data.dropWhile Char.isWhitespace).reverse.dropWhile Char.isWhitespace).reverse⟩

/-- Python `sub in s` on strings: `sub.data` occurs contiguously in `s.data`. -/
def listOccurs (pat : List Char) : List Char → Bool
  | [] => pat.isEmpty
  | c :: t => pat.isPrefixOf (c :: t) || listOccurs pat t

/-- Python `sub in s` (substring test). -/
def strContains (s sub : String) : Bool :=
  listOccurs sub.data s.data

/-- Python `s.endswith(suffix)`: literal, case-sensitive suffix test. -/
def strEndsWith (s suf : String) : Bool :=
  List.isSuffixOf suf.data s.data

/-- Python `os.path.join(root, name)` for the relative names `os.walk` yields. -/
def joinPath (root name : String) : String :=
  root ++ "/" ++ name

/-- Outcome of `subprocess.run`: exit code and the two captured streams. -/
structure CmdOutcome where
  exitCode : Nat
  stdout : String
  stderr : String
  deriving DecidableEq

/-- `subprocess.CalledProcessError`: command, exit code, captured stderr. -/
structure CmdError where
  cmd : String
  exitCode : Nat
  stderr : String
  deriving DecidableEq

/-- The shell: a command plus working directory, applied to the current
filesystem, yields a `CmdOutcome` and a possibly changed filesystem. -/
def Exec : Type :=
  String → Option String → List String → CmdOutcome × List String

/-- Exceptions that cross function boundaries in the embedded fragment. -/
inductive Exn where
  /-- `OSError` and subclasses (`PermissionError`, `FileNotFoundError`). -/
  | osError
  /-- `KeyError`, from `file_info['id']` on a JSON body without `'id'`. -/
  | keyError
  deriving DecidableEq

/-- Response of the knowledge service to the upload POST, as seen through
`requests`: final status, whether the body parses as JSON, and the value of
its `'id'` field when present. -/
structure UploadResp where
  status : Nat
  jsonOk : Bool
  idField : Option String
  deriving DecidableEq

/-- Result of `requests.post` on the files endpoint: either a transport-level
`RequestException` or a response. -/
inductive UploadOutcome where
  | transportError
  | resp (r : UploadResp)
  deriving DecidableEq

/-- Result of `requests.post` on the knowledge file-add endpoint. -/
inductive RegisterOutcome where
  | transportError
  | resp (status : Nat)
  deriving DecidableEq

/-- The environment of external collaborators `sync.py` calls into. -/
structure Oracle where
  /-- `subprocess.run` via the shell. -/
  exec : Exec
  /-- `urlparse(url).netloc`. -/
  netloc : String → String
  /-- `urlparse(url).path`. -/
  urlpath : String → String
  /-- Whether `os.makedirs(dir, exist_ok=True)` succeeds. -/
  mkdirOk : String → Bool
  /-- `os.walk(top)` on the given filesystem, flattened to
  `(root, filename)` pairs in walk order. -/
  walk : List String → String → List (String × String)
  /-- Whether `open(path, 'rb')` succeeds. -/
  openOk : String → Bool
  /-- The upload POST for a given file path. -/
  postUpload : String → UploadOutcome
  /-- The registration POST for a given file id. -/
  postRegister : String → RegisterOutcome

/-- Process-wide configuration read from the environment at startup. -/
structure Config where
  githubToken : Option String
  githubUsername : Option String
  repoUrl : Option String
  syncDirectory : String
  webuiUrl : String
  token : String
  knowledgeId : String
  syncInterval : Nat
  allowedExtensions : List String

/-- `run_command(command, cwd, error_message, hide_output)`.  The source passes
`capture_output=hide_output`, so stdout is captured only when `hide_output`
is true; the returned value is `result.stdout.strip() if result.stdout and
not hide_output else ""`.  Non-zero exit raises `CalledProcessError`. -/
def run_command (exec : Exec) (command : String) (cwd : Option String)
    (hide_output : Bool) (fs : List String) :
    Except CmdError String × List String :=
  let (r, fs1) := exec command cwd fs
  let capturedStdout : Option String := if hide_output then some r.stdout else none
  if r.exitCode = 0 then
    (Except.ok
      (if pyTruthy capturedStdout && !hide_output then
        pyStrip (capturedStdout.getD "")
      else ""), fs1)
  else
    (Except.error ⟨command, r.exitCode, r.stderr⟩, fs1)

/-- `configure_git_credentials()`: skip when either credential is falsy,
otherwise run two `git config` commands; any raised exception is caught
inside this function and turned into a `false` return. -/
def configure_git_credentials (cfg : Config) (exec : Exec) (fs : List String) :
    Bool × List String :=
  if !(pyTruthy cfg.githubUsername && pyTruthy cfg.githubToken) then
    (false, fs)
  else
    let u := cfg.githubUsername.getD ""
    let (r1, fs1) :=
      run_command exec ("git config --global user.name \"" ++ u ++ "\"") none true fs
    match r1 with
    | Except.error _ => (false, fs1)
    | Except.ok _ =>
      let (r2, fs2) :=
        run_command exec
          ("git config --global user.email \"" ++ u ++ "@users.noreply.github.com\"")
          none true fs1
      match r2 with
      | Except.error _ => (false, fs2)
      | Except.ok _ => (true, fs2)

/-- `get_authenticated_repo_url()`: raises `ValueError` when `REPO_URL` is
falsy; embeds `username:token@` before the host when a token is configured. -/
def get_authenticated_repo_url (cfg : Config) (ora : Oracle) :
    Except String String :=
  if !pyTruthy cfg.repoUrl then
    Except.error "REPO_URL must be set in .env"
  else
    let url := cfg.repoUrl.getD ""
    if pyTruthy cfg.githubToken then
      Except.ok ("https://" ++ cfg.githubUsername.getD "None" ++ ":"
        ++ cfg.githubToken.getD "" ++ "@" ++ ora.netloc url ++ ora.urlpath url)
    else
      Except.ok url

/-- Add a path to the filesystem if absent (`os.makedirs` never removes). -/
def insertPath (p : String) (fs : List String) : List String :=
  if p ∈ fs then fs else p :: fs

/-- `ensure_directory(directory)`: create the directory (idempotent); a
`PermissionError` or other `OSError` is logged and re-raised. -/
def ensure_directory (ora : Oracle) (dir : String) (fs : List String) :
    Except Exn Unit × List String :=
  if ora.mkdirOk dir then
    (Except.ok (), insertPath dir fs)
  else
    (Except.error Exn.osError, fs)

/-- The version-control metadata marker inside the mirror directory,
`os.path.join(SYNC_DIRECTORY, '.git')`. -/
def gitMarker (dir : String) : String :=
  joinPath dir ".git"

/-- `clone_or_pull_repository()`: early `false` when no repo URL; configure
credentials (result ignored); ensure the directory (exceptions propagate);
then inside `try`: build the authenticated URL and run `git pull` or
`git clone`, converting any exception to a `false` return. -/
def clone_or_pull_repository (cfg : Config) (ora : Oracle) (fs : List String) :
    Except Exn Bool × List String :=
  if !pyTruthy cfg.repoUrl then
    (Except.ok false, fs)
  else
    let (_, fs1) := configure_git_credentials cfg ora.exec fs
    match ensure_directory ora cfg.syncDirectory fs1 with
    | (Except.error e, fs2) => (Except.error e, fs2)
    | (Except.ok _, fs2) =>
      match get_authenticated_repo_url cfg ora with
      | Except.error _ => (Except.ok false, fs2)
      | Except.ok authUrl =>
        if gitMarker cfg.syncDirectory ∈ fs2 then
          let (r, fs3) := run_command ora.exec "git pull" (some cfg.syncDirectory) false fs2
          match r with
          | Except.ok _ => (Except.ok true, fs3)
          | Except.error _ => (Except.ok false, fs3)
        else
          let (r, fs3) :=
            run_command ora.exec ("git clone " ++ authUrl ++ " .")
              (some cfg.syncDirectory) false fs2
          match r with
          | Except.ok _ => (Except.ok true, fs3)
          | Except.error _ => (Except.ok false, fs3)

/-- `is_allowed_extension(filename)`:
`any(filename.endswith(ext) for ext in ALLOWED_EXTENSIONS)`. -/
def is_allowed_extension (exts : List String) (filename : String) : Bool :=
  exts.any fun ext => strEndsWith filename ext

/-- Observable outbound HTTP calls of the Knowledge Uploader. -/
inductive Event where
  /-- Multipart POST of a file to the files endpoint. -/
  | uploadCall (url : String) (path : String)
  /-- JSON POST of a file id to the knowledge file-add endpoint. -/
  | registerCall (url : String) (fileId : String)
  deriving DecidableEq

/-- `add_file_to_knowledge(file_id)`: one POST; transport errors and bad
statuses (`raise_for_status`) are `RequestException`s, caught and logged. -/
def add_file_to_knowledge (cfg : Config) (ora : Oracle) (fileId : String) :
    List Event :=
  let url := cfg.webuiUrl ++ "/api/v1/knowledge/" ++ cfg.knowledgeId ++ "/file/add"
  match ora.postRegister fileId with
  | RegisterOutcome.transportError => [Event.registerCall url fileId]
  | RegisterOutcome.resp _ => [Event.registerCall url fileId]

/-- `upload_to_webui(file_path)`: open the file (OSError propagates), POST it,
`raise_for_status` (raises `HTTPError` iff 400 ≤ status < 600 — client and
server errors only; 1xx/3xx and out-of-band statuses ≥ 600 do not raise),
parse JSON (a non-JSON body raises `requests.exceptions.JSONDecodeError`, a
`RequestException` since requests 2.27, so it is caught like the other two),
then `file_info['id']` (`KeyError` propagates) and register the id. -/
def upload_to_webui (cfg : Config) (ora : Oracle) (filePath : String) :
    List Event × Except Exn Unit :=
  let url := cfg.webuiUrl ++ "/api/v1/files/"
  if ora.openOk filePath then
    match ora.postUpload filePath with
    | UploadOutcome.transportError => ([Event.uploadCall url filePath], Except.ok ())
    | UploadOutcome.resp r =>
      if 400 ≤ r.status ∧ r.status < 600 then
        ([Event.uploadCall url filePath], Except.ok ())
      else if r.jsonOk then
        match r.idField with
        | some fid =>
          ([Event.uploadCall url filePath] ++ add_file_to_knowledge cfg ora fid,
            Except.ok ())
        | none => ([Event.uploadCall url filePath], Except.error Exn.keyError)
      else
        ([Event.uploadCall url filePath], Except.ok ())
  else
    ([], Except.error Exn.osError)

/-- Whether the per-file loop of `sync_process` uploads a walked entry:
the joined path must not contain `.git` and the filename must pass
`is_allowed_extension`. -/
def acceptedEntry (cfg : Config) (e : String × String) : Bool :=
  !strContains (joinPath e.1 e.2) ".git"
    && is_allowed_extension cfg.allowedExtensions e.2

/-- Number of walked entries the cycle attempts to upload. -/
def countAccepted (cfg : Config) (entries : List (String × String)) : Nat :=
  (entries.filter (acceptedEntry cfg)).length

/-- The inner loop of `sync_process`: skip `.git` paths, filter by extension,
upload, and bump `files_uploaded`; an exception from `upload_to_webui`
aborts the loop. -/
def uploadLoop (cfg : Config) (ora : Oracle) :
    List (String × String) → Nat → Except Exn Nat × List Event
  | [], count => (Except.ok count, [])
  | (root, name) :: rest, count =>
    let filePath := joinPath root name
    if strContains filePath ".git" then
      uploadLoop cfg ora rest count
    else if is_allowed_extension cfg.allowedExtensions name then
      match upload_to_webui cfg ora filePath with
      | (evs, Except.ok _) =>
        let (r, evs2) := uploadLoop cfg ora rest (count + 1)
        (r, evs ++ evs2)
      | (evs, Except.error e) => (Except.error e, evs)
    else
      uploadLoop cfg ora rest count

/-- The mirror phase of a cycle: `ensure_directory(SYNC_DIRECTORY)` (raises
propagate) followed by `clone_or_pull_repository()`. -/
def mirrorPhase (cfg : Config) (ora : Oracle) (fs : List String) :
    Except Exn Bool × List String :=
  match ensure_directory ora cfg.syncDirectory fs with
  | (Except.error e, fs1) => (Except.error e, fs1)
  | (Except.ok _, fs1) => clone_or_pull_repository cfg ora fs1

/-- Result of one `sync_process()` call: the `files_uploaded` count (or the
re-raised exception), the outbound HTTP calls, and the final filesystem. -/
structure CycleOut where
  result : Except Exn Nat
  events : List Event
  fsOut : List String

/-- `sync_process()`: mirror phase, then walk `SYNC_DIRECTORY` and run the
upload loop; the `except` clause logs and re-raises, so errors propagate. -/
def sync_process (cfg : Config) (ora : Oracle) (fs : List String) : CycleOut :=
  match mirrorPhase cfg ora fs with
  | (Except.error e, fs2) => ⟨Except.error e, [], fs2⟩
  | (Except.ok _, fs2) =>
    let entries := ora.walk fs2 cfg.syncDirectory
    let (r, evs) := uploadLoop cfg ora entries 0
    ⟨r, evs, fs2⟩

/-- Observable steps of the daemon loop in `main()`. -/
inductive LoopEvent where
  /-- A cycle ran to completion with the given `files_uploaded` count. -/
  | cycleOk (count : Nat)
  /-- A cycle raised; the exception was caught and logged at the loop. -/
  | cycleError (e : Exn)
  /-- `time.sleep(SYNC_INTERVAL)`. -/
  | sleepFor (seconds : Nat)
  deriving DecidableEq

/-- Summarise a cycle result as a loop event. -/
def cycleEvent : Except Exn Nat → LoopEvent
  | Except.ok n => LoopEvent.cycleOk n
  | Except.error e => LoopEvent.cycleError e

/-- Whether a loop event is a cycle invocation. -/
def isCycle : LoopEvent → Bool
  | LoopEvent.cycleOk _ => true
  | LoopEvent.cycleError _ => true
  | LoopEvent.sleepFor _ => false

/-- Whether a loop event is a sleep. -/
def isSleep : LoopEvent → Bool
  | LoopEvent.sleepFor _ => true
  | _ => false

/-- `main()`'s `while True` body, unrolled over a list of per-iteration
environments: `try: sync_process() except Exception: log`, then sleep.
The trace records each cycle's outcome and each sleep. -/
def mainLoop (cfg : Config) : List Oracle → List String → List LoopEvent
  | [], _ => []
  | ora :: rest, fs =>
    let out := sync_process cfg ora fs
    cycleEvent out.result :: LoopEvent.sleepFor cfg.syncInterval
      :: mainLoop cfg rest out.fsOut

end Sync

namespace Sync

/-! ### Helper lemmas -/

theorem isCycle_cycleEvent (r : Except Exn Nat) : isCycle (cycleEvent r) = true := by
  cases r <;> rfl

theorem isSleep_cycleEvent (r : Except Exn Nat) : isSleep (cycleEvent r) = false := by
  cases r <;> rfl

theorem mainLoop_len (cfg : Config) (oras : List Oracle) (fs : List String) :
    (mainLoop cfg oras fs).length = 2 * oras.length := by
  induction oras generalizing fs with
  | nil => simp [mainLoop]
  | cons o rest ih =>
    simp only [mainLoop, List.length_cons, ih]
    omega

theorem mainLoop_cycles (cfg : Config) (oras : List Oracle) (fs : List String) :
    (mainLoop cfg oras fs).countP isCycle = oras.length := by
  induction oras generalizing fs with
  | nil => simp [mainLoop]
  | cons o rest ih =>
    have h1 : isCycle (cycleEvent (sync_process cfg o fs).result) = true :=
      isCycle_cycleEvent _
    have h2 : isCycle (LoopEvent.sleepFor cfg.syncInterval) = false := rfl
    simp [mainLoop, List.countP_cons, h1, h2, ih]

theorem mainLoop_sleeps (cfg : Config) (oras : List Oracle) (fs : List String) :
    (mainLoop cfg oras fs).countP isSleep = oras.length := by
  induction oras generalizing fs with
  | nil => simp [mainLoop]
  | cons o rest ih =>
    have h1 : isSleep (cycleEvent (sync_process cfg o fs).result) = false :=
      isSleep_cycleEvent _
    have h2 : isSleep (LoopEvent.sleepFor cfg.syncInterval) = true := rfl
    simp [mainLoop, List.countP_cons, h1, h2, ih]

theorem is_allowed_iff (l : List String) (name : String) :
    is_allowed_extension l name = true ↔ ∃ ext ∈ l, strEndsWith name ext = true := by
  simp [is_allowed_extension, List.any_eq_true]

/-! ### C3: Command Runner return value on success -/

/-- Concrete shell for C3: every command exits 0 with stdout `" hello "`. -/
def execC3 : Exec := fun _ _ f => (⟨0, " hello ", ""⟩, f)

/-- C3 counterexample: with output capture requested (`hide_output=True`, hence
`capture_output=True`) and a successful command whose captured stdout strips to
`"hello"`, `run_command` returns `""`, not the trimmed captured output: the
guard `result.stdout and not hide_output` is false whenever capture is on. -/
theorem c3_counterexample :
    (run_command execC3 "ls" none true []).1 = Except.ok "" ∧
    pyStrip " hello " = "hello" ∧ ("" : String) ≠ "hello" :=
  ⟨rfl, rfl, by decide⟩

/-- C3 (amended): for every command whose external process exits with code 0,
`run_command` returns the empty string, whether or not capture was requested —
captured output is never propagated to the caller. -/
theorem c3_success_returns_empty (exec : Exec) (cmd : String) (cwd : Option String)
    (hide : Bool) (fs : List String) (h : ((exec cmd cwd fs).1).exitCode = 0) :
    (run_command exec cmd cwd hide fs).1 = Except.ok "" := by
  rcases hx : exec cmd cwd fs with ⟨r, fs1⟩
  rw [hx] at h
  replace h : r.exitCode = 0 := h
  cases hide <;> simp [run_command, hx, h, pyTruthy]

/-- C3 witness: the amended theorem applied to a concrete successful command. -/
theorem c3_witness : (run_command execC3 "ls" none false []).1 = Except.ok "" :=
  c3_success_returns_empty execC3 "ls" none false [] rfl

/-! ### C5: Extension Filter semantics and order independence -/

/-- C5: the Extension Filter accepts a filename iff it ends (literally,
case-sensitively) with at least one configured extension string, and the
decision is invariant under any permutation of the allow-list. -/
theorem c5_filter_iff_and_perm (exts exts2 : List String) (name : String)
    (hp : List.Perm exts exts2) :
    (is_allowed_extension exts name = true ↔
      ∃ ext ∈ exts, strEndsWith name ext = true) ∧
    is_allowed_extension exts name = is_allowed_extension exts2 name := by
  refine ⟨is_allowed_iff exts name, ?_⟩
  rw [Bool.eq_iff_iff, is_allowed_iff exts name, is_allowed_iff exts2 name]
  constructor
  · rintro ⟨e, he, hend⟩
    exact ⟨e, hp.mem_iff.mp he, hend⟩
  · rintro ⟨e, he, hend⟩
    exact ⟨e, hp.mem_iff.mpr he, hend⟩

/-- C5 witness: the theorem at the default allow-list `.md,.txt`, a concrete
permutation of it, and the filename `a.md`. -/
theorem c5_witness :
    (is_allowed_extension [".md", ".txt"] "a.md" = true ↔
      ∃ ext ∈ [".md", ".txt"], strEndsWith "a.md" ext = true) ∧
    is_allowed_extension [".md", ".txt"] "a.md" =
      is_allowed_extension [".txt", ".md"] "a.md" :=
  c5_filter_iff_and_perm [".md", ".txt"] [".txt", ".md"] "a.md" (by decide)

/-! ### C8: sync() with no repository URL -/

/-- C8: when the repository URL is unconfigured (unset or empty),
`clone_or_pull_repository` returns `false` without raising and leaves the
filesystem exactly as it was — in particular it does not create the mirror
directory, since the early return precedes `ensure_directory`. -/
theorem c8_no_url_no_touch (cfg : Config) (ora : Oracle) (fs : List String)
    (h : pyTruthy cfg.repoUrl = false) :
    clone_or_pull_repository cfg ora fs = (Except.ok false, fs) := by
  simp [clone_or_pull_repository, h]

/-- Concrete configuration for the C8 witness: no repository URL. -/
def cfgC8 : Config :=
  { githubToken := none
    githubUsername := none
    repoUrl := none
    syncDirectory := "/app/data"
    webuiUrl := ""
    token := "your-webui-token-here"
    knowledgeId := ""
    syncInterval := 3600
    allowedExtensions := [".md", ".txt"] }

/-- Oracle for the C8 witness. -/
def oraC8 : Oracle :=
  { exec := fun _ _ f => (⟨0, "", ""⟩, f)
    netloc := fun _ => ""
    urlpath := fun _ => ""
    mkdirOk := fun _ => true
    walk := fun _ _ => []
    openOk := fun _ => true
    postUpload := fun _ => UploadOutcome.transportError
    postRegister := fun _ => RegisterOutcome.transportError }

/-- C8 witness: the theorem at a concrete unconfigured environment; the
filesystem (without the mirror directory) comes back unchanged. -/
theorem c8_witness : clone_or_pull_repository cfgC8 oraC8 [] = (Except.ok false, []) :=
  c8_no_url_no_touch cfgC8 oraC8 [] rfl

/-! ### C9: the daemon loop survives cycle failures -/

/-- C9: over any finite prefix of the daemon loop (one environment per
iteration), every scheduled cycle runs and every iteration is followed by a
sleep of the configured interval, regardless of which cycles raised: the trace
has exactly one cycle event and one sleep event per iteration, and an
iteration — even one whose cycle errored — is always followed by the sleep and
then by the rest of the loop. -/
theorem c9_loop_survives (cfg : Config) (oras : List Oracle) (fs : List String) :
    (mainLoop cfg oras fs).length = 2 * oras.length ∧
    (mainLoop cfg oras fs).countP isCycle = oras.length ∧
    (mainLoop cfg oras fs).countP isSleep = oras.length ∧
    ∀ (ora : Oracle) (rest : List Oracle) (fs0 : List String),
      mainLoop cfg (ora :: rest) fs0 =
        cycleEvent (sync_process cfg ora fs0).result
          :: LoopEvent.sleepFor cfg.syncInterval
          :: mainLoop cfg rest (sync_process cfg ora fs0).fsOut :=
  ⟨mainLoop_len cfg oras fs, mainLoop_cycles cfg oras fs,
    mainLoop_sleeps cfg oras fs, fun _ _ _ => rfl⟩

end Sync

namespace Sync

/-! ### Upload event lemmas -/

theorem add_file_to_knowledge_eq (cfg : Config) (ora : Oracle) (fid : String) :
    add_file_to_knowledge cfg ora fid =
      [Event.registerCall
        (cfg.webuiUrl ++ "/api/v1/knowledge/" ++ cfg.knowledgeId ++ "/file/add") fid] := by
  cases hpr : ora.postRegister fid <;> simp [add_file_to_knowledge, hpr]

theorem upload_to_webui_events_shape (cfg : Config) (ora : Oracle) (p : String) :
    ∀ e ∈ (upload_to_webui cfg ora p).1,
      (∃ url, e = Event.uploadCall url p) ∨ ∃ url fid, e = Event.registerCall url fid := by
  intro e he
  by_cases ho : ora.openOk p
  · rcases hu : ora.postUpload p with _ | r
    · simp [upload_to_webui, ho, hu] at he
      exact Or.inl ⟨_, he⟩
    · by_cases hs : 400 ≤ r.status ∧ r.status < 600
      · simp [upload_to_webui, ho, hu, hs] at he
        exact Or.inl ⟨_, he⟩
      · rcases hj : r.jsonOk
        · simp [upload_to_webui, ho, hu, hs, hj] at he
          exact Or.inl ⟨_, he⟩
        · rcases hi : r.idField with _ | fid
          · simp [upload_to_webui, ho, hu, hs, hj, hi] at he
            exact Or.inl ⟨_, he⟩
          · simp [upload_to_webui, add_file_to_knowledge_eq, ho, hu, hs, hj, hi] at he
            rcases he with he | he
            · exact Or.inl ⟨_, he⟩
            · exact Or.inr ⟨_, _, he⟩
  · simp [upload_to_webui, ho] at he

/-- Whether an event is the registration POST. -/
def isRegister : Event → Bool
  | Event.registerCall _ _ => true
  | _ => false

/-! ### C1: registration is gated on the upload call -/

/-- C1 (amended): no registration call is issued when the upload call fails
with a transport error or returns a status in 400–599 (the statuses for which
`raise_for_status` raises); conversely, a registration call for `fid` is
issued only when the upload returned a response with a status outside 400–599
whose body parsed as JSON with `'id' = fid`.  (For non-2xx statuses outside
that band — 1xx/3xx and ≥ 600 — the code does proceed to registration when
the body yields an id; see the counterexample.) -/
theorem c1_register_gated (cfg : Config) (ora : Oracle) (path : String) :
    ((ora.postUpload path = UploadOutcome.transportError ∨
        ∃ r, ora.postUpload path = UploadOutcome.resp r ∧
          400 ≤ r.status ∧ r.status < 600) →
      (upload_to_webui cfg ora path).1.all (fun e => !isRegister e) = true) ∧
    (∀ url fid, Event.registerCall url fid ∈ (upload_to_webui cfg ora path).1 →
      ∃ r, ora.postUpload path = UploadOutcome.resp r ∧
        ¬(400 ≤ r.status ∧ r.status < 600) ∧
        r.jsonOk = true ∧ r.idField = some fid) := by
  constructor
  · rintro (htr | ⟨r, hr, hs⟩)
    · by_cases ho : ora.openOk path <;>
        simp [upload_to_webui, ho, htr, isRegister]
    · by_cases ho : ora.openOk path <;>
        simp [upload_to_webui, ho, hr, hs.1, hs.2, isRegister]
  · intro url fid hmem
    by_cases ho : ora.openOk path
    · rcases hu : ora.postUpload path with _ | r
      · simp [upload_to_webui, ho, hu] at hmem
      · by_cases hs : 400 ≤ r.status ∧ r.status < 600
        · simp [upload_to_webui, ho, hu, hs] at hmem
        · rcases hj : r.jsonOk
          · simp [upload_to_webui, ho, hu, hs, hj] at hmem
          · rcases hi : r.idField with _ | fid0
            · simp [upload_to_webui, ho, hu, hs, hj, hi] at hmem
            · simp [upload_to_webui, add_file_to_knowledge_eq, ho, hu, hs, hj, hi] at hmem
              exact ⟨r, rfl, hs, hj, by rw [hi, hmem.2]⟩
    · simp [upload_to_webui, ho] at hmem

/-- Base configuration for concrete scenarios. -/
def cfgBase : Config :=
  { githubToken := none
    githubUsername := none
    repoUrl := none
    syncDirectory := "/app/data"
    webuiUrl := "http://w"
    token := "tok"
    knowledgeId := "k"
    syncInterval := 3600
    allowedExtensions := [".md", ".txt"] }

/-- Base oracle for concrete scenarios. -/
def oraBase : Oracle :=
  { exec := fun _ _ f => (⟨0, "", ""⟩, f)
    netloc := fun _ => "github.com"
    urlpath := fun _ => "/o/r.git"
    mkdirOk := fun _ => true
    walk := fun _ _ => []
    openOk := fun _ => true
    postUpload := fun _ => UploadOutcome.transportError
    postRegister := fun _ => RegisterOutcome.resp 200 }

/-- Oracle for the C1 counterexample: the upload POST yields HTTP 300 (a
non-2xx status `raise_for_status` does not raise on) with a JSON body
carrying an id. -/
def oraC1 : Oracle :=
  { oraBase with postUpload := fun _ => UploadOutcome.resp ⟨300, true, some "xyz"⟩ }

/-- Second oracle for the C1 counterexample: the upload POST yields the
out-of-band status 999 (outside 400–599, so `raise_for_status` does not
raise on it either) with a JSON body carrying an id. -/
def oraC1hi : Oracle :=
  { oraBase with postUpload := fun _ => UploadOutcome.resp ⟨999, true, some "xyz"⟩ }

/-- C1 counterexample: on non-2xx upload responses outside the 400–599 band —
HTTP 300 below it and HTTP 999 above it — whose bodies parse with an `'id'`,
the code does issue the registration call, because `raise_for_status` raises
only for 400 ≤ status < 600. -/
theorem c1_counterexample :
    oraC1.postUpload "/app/data/a.md" = UploadOutcome.resp ⟨300, true, some "xyz"⟩ ∧
    ¬(200 ≤ (300 : Nat) ∧ (300 : Nat) ≤ 299) ∧
    (upload_to_webui cfgBase oraC1 "/app/data/a.md").1 =
      [Event.uploadCall "http://w/api/v1/files/" "/app/data/a.md",
       Event.registerCall "http://w/api/v1/knowledge/k/file/add" "xyz"] ∧
    oraC1hi.postUpload "/app/data/a.md" = UploadOutcome.resp ⟨999, true, some "xyz"⟩ ∧
    ¬(200 ≤ (999 : Nat) ∧ (999 : Nat) ≤ 299) ∧
    (upload_to_webui cfgBase oraC1hi "/app/data/a.md").1 =
      [Event.uploadCall "http://w/api/v1/files/" "/app/data/a.md",
       Event.registerCall "http://w/api/v1/knowledge/k/file/add" "xyz"] :=
  ⟨rfl, by decide, rfl, rfl, by decide, rfl⟩

/-- C1 witness: the amended theorem at a concrete transport failure — no
registration call appears in the event trace. -/
theorem c1_witness :
    (upload_to_webui cfgBase oraBase "/app/data/a.md").1.all
      (fun e => !isRegister e) = true :=
  (c1_register_gated cfgBase oraBase "/app/data/a.md").1 (Or.inl rfl)

/-! ### C6: no `.git` path is ever uploaded -/

/-- An upload event whose path avoids the version-control marker; register
events are unconstrained. -/
def eventClean : Event → Bool
  | Event.uploadCall _ p => !strContains p ".git"
  | Event.registerCall _ _ => true

theorem uploadLoop_clean (cfg : Config) (ora : Oracle) :
    ∀ (entries : List (String × String)) (count : Nat),
      ((uploadLoop cfg ora entries count).2).all eventClean = true := by
  intro entries
  induction entries with
  | nil => intro count; rfl
  | cons e rest ih =>
    intro count
    rcases e with ⟨root, name⟩
    rcases hg : strContains (joinPath root name) ".git"
    · rcases ha : is_allowed_extension cfg.allowedExtensions name
      · simp [uploadLoop, hg, ha, ih]
      · rcases hu : upload_to_webui cfg ora (joinPath root name) with ⟨evs, r⟩
        have hevs : evs.all eventClean = true := by
          rw [List.all_eq_true]
          intro e' he'
          have hfst : (upload_to_webui cfg ora (joinPath root name)).1 = evs := by
            rw [hu]
          rcases upload_to_webui_events_shape cfg ora (joinPath root name) e'
              (by rw [hfst]; exact he') with ⟨url, rfl⟩ | ⟨url, fid, rfl⟩
          · simp [eventClean, hg]
          · rfl
        cases r with
        | ok u => simp [uploadLoop, hg, ha, hu, List.all_append, hevs, ih]
        | error ex => simp [uploadLoop, hg, ha, hu, hevs]
    · simp [uploadLoop, hg, ih]

/-- C6: a sync cycle never issues an upload call for a path whose string
contains the version-control marker `.git`, whatever the directory walk
yields at any depth: every upload event in the cycle trace is clean. -/
theorem c6_no_git_uploads (cfg : Config) (ora : Oracle) (fs : List String) :
    ((sync_process cfg ora fs).events).all eventClean = true := by
  rcases hm : mirrorPhase cfg ora fs with ⟨r, fs2⟩
  cases r with
  | error e => simp [sync_process, hm]
  | ok b =>
    have h := uploadLoop_clean cfg ora (ora.walk fs2 cfg.syncDirectory) 0
    rcases hu : uploadLoop cfg ora (ora.walk fs2 cfg.syncDirectory) 0 with ⟨r2, evs⟩
    rw [hu] at h
    simp [sync_process, hm, hu]
    simpa using h

end Sync

namespace Sync

/-! ### C10: 2xx responses with unusable bodies -/

/-- Oracle for the C10 counterexample: HTTP 200 whose body is not valid JSON. -/
def oraC10bad : Oracle :=
  { oraBase with postUpload := fun _ => UploadOutcome.resp ⟨200, false, none⟩ }

/-- C10 counterexample: a 2xx upload response whose body is not valid JSON
does not make the upload operation raise: `response.json()` raises
`requests.exceptions.JSONDecodeError`, which has been a subclass of
`RequestException` since requests 2.27, so the per-file handler catches it and
`upload_to_webui` returns normally (no registration, cycle continues). -/
theorem c10_counterexample :
    oraC10bad.postUpload "/app/data/a.md" = UploadOutcome.resp ⟨200, false, none⟩ ∧
    (upload_to_webui cfgBase oraC10bad "/app/data/a.md").2 = Except.ok () :=
  ⟨rfl, rfl⟩

/-- C10 (amended): a 2xx upload response that is valid JSON but lacks an
`'id'` field makes `upload_to_webui` raise `KeyError`; the exception is not a
`RequestException`, so the per-file loop aborts with it — the remaining
entries of the cycle produce no further calls — while a 2xx body that is not
valid JSON is caught per-file and the loop continues; the daemon loop
contains the propagated error: the iteration is still followed by the sleep
and by the rest of the loop. -/
theorem c10_missing_id_raises (cfg : Config) (ora : Oracle) (root name : String)
    (rest : List (String × String)) (count : Nat) (s : Nat)
    (h1 : ora.postUpload (joinPath root name) = UploadOutcome.resp ⟨s, true, none⟩)
    (h2 : 200 ≤ s) (h3 : s < 300)
    (h4 : ora.openOk (joinPath root name) = true)
    (h5 : strContains (joinPath root name) ".git" = false)
    (h6 : is_allowed_extension cfg.allowedExtensions name = true) :
    (upload_to_webui cfg ora (joinPath root name)).2 = Except.error Exn.keyError ∧
    uploadLoop cfg ora ((root, name) :: rest) count =
      (Except.error Exn.keyError,
        [Event.uploadCall (cfg.webuiUrl ++ "/api/v1/files/") (joinPath root name)]) ∧
    (∀ (cfg2 : Config) (ora2 : Oracle) (p : String) (s2 : Nat) (i2 : Option String),
      ora2.postUpload p = UploadOutcome.resp ⟨s2, false, i2⟩ → s2 < 400 →
      ora2.openOk p = true →
      (upload_to_webui cfg2 ora2 p).2 = Except.ok ()) ∧
    (∀ (oras : List Oracle) (fs0 : List String) (ora0 : Oracle),
      mainLoop cfg (ora0 :: oras) fs0 =
        cycleEvent (sync_process cfg ora0 fs0).result
          :: LoopEvent.sleepFor cfg.syncInterval
          :: mainLoop cfg oras (sync_process cfg ora0 fs0).fsOut) := by
  have hs : ¬(400 ≤ s ∧ s < 600) := by omega
  have hup : upload_to_webui cfg ora (joinPath root name) =
      ([Event.uploadCall (cfg.webuiUrl ++ "/api/v1/files/") (joinPath root name)],
        Except.error Exn.keyError) := by
    simp [upload_to_webui, h4, h1, hs]
  refine ⟨by rw [hup], ?_, ?_, fun _ _ _ => rfl⟩
  · simp [uploadLoop, h5, h6, hup]
  · intro cfg2 ora2 p s2 i2 hu2 hlt ho2
    have hns : ¬(400 ≤ s2 ∧ s2 < 600) := by omega
    simp [upload_to_webui, ho2, hu2, hns]

/-- Oracle for the C10 witness: HTTP 200, valid JSON, no `'id'` field. -/
def oraC10 : Oracle :=
  { oraBase with postUpload := fun _ => UploadOutcome.resp ⟨200, true, none⟩ }

/-- C10 witness: the amended theorem at a concrete cycle with a second
pending file — the loop aborts with `KeyError` after the first upload call. -/
theorem c10_witness :
    (upload_to_webui cfgBase oraC10 (joinPath "/app/data" "a.md")).2 =
      Except.error Exn.keyError ∧
    uploadLoop cfgBase oraC10 [("/app/data", "a.md"), ("/app/data", "b.md")] 0 =
      (Except.error Exn.keyError,
        [Event.uploadCall (cfgBase.webuiUrl ++ "/api/v1/files/")
          (joinPath "/app/data" "a.md")]) := by
  have h := c10_missing_id_raises cfgBase oraC10 "/app/data" "a.md"
    [("/app/data", "b.md")] 0 200 rfl (by decide) (by decide) rfl (by decide) (by decide)
  exact ⟨h.1, h.2.1⟩

end Sync

namespace Sync

/-! ### Filesystem-preservation lemmas -/

/-- The external shell never removes an existing path.  This is the frame
assumption on the opaque version-control client; the program itself has no
delete primitive. -/
def ExecPreserves (exec : Exec) : Prop :=
  ∀ (c : String) (w : Option String) (f : List String) (p : String),
    p ∈ f → p ∈ (exec c w f).2

theorem insertPath_mem (q : String) (fs : List String) (p : String)
    (h : p ∈ fs) : p ∈ insertPath q fs := by
  unfold insertPath
  split
  · exact h
  · exact List.mem_cons_of_mem _ h

theorem run_command_preserves (exec : Exec) (hp : ExecPreserves exec)
    (c : String) (w : Option String) (hide : Bool) (fs : List String)
    (p : String) (hm : p ∈ fs) : p ∈ (run_command exec c w hide fs).2 := by
  rcases hx : exec c w fs with ⟨r, fs1⟩
  have h := hp c w fs p hm
  rw [hx] at h
  by_cases he : r.exitCode = 0 <;> simp [run_command, hx, he] <;> exact h

theorem configure_preserves (cfg : Config) (exec : Exec) (hp : ExecPreserves exec)
    (fs : List String) (p : String) (hm : p ∈ fs) :
    p ∈ (configure_git_credentials cfg exec fs).2 := by
  rcases hcred : !(pyTruthy cfg.githubUsername && pyTruthy cfg.githubToken)
  · rcases h1 : run_command exec
        ("git config --global user.name \"" ++ cfg.githubUsername.getD "" ++ "\"")
        none true fs with ⟨r1, fs1⟩
    have hp1 : p ∈ fs1 := by
      have h := run_command_preserves exec hp
        ("git config --global user.name \"" ++ cfg.githubUsername.getD "" ++ "\"")
        none true fs p hm
      rw [h1] at h
      exact h
    cases r1 with
    | error e =>
      simp [configure_git_credentials, hcred, h1]
      exact hp1
    | ok s =>
      rcases h2 : run_command exec
          ("git config --global user.email \""
            ++ cfg.githubUsername.getD "" ++ "@users.noreply.github.com\"")
          none true fs1 with ⟨r2, fs2⟩
      have hp2 : p ∈ fs2 := by
        have h := run_command_preserves exec hp
          ("git config --global user.email \""
            ++ cfg.githubUsername.getD "" ++ "@users.noreply.github.com\"")
          none true fs1 p hp1
        rw [h2] at h
        exact h
      cases r2 with
      | error e =>
        simp [configure_git_credentials, hcred, h1, h2]
        exact hp2
      | ok s2 =>
        simp [configure_git_credentials, hcred, h1, h2]
        exact hp2
  · simp [configure_git_credentials, hcred]
    exact hm

/-! ### sync() failure-isolation lemmas -/

theorem get_authenticated_repo_url_ok (cfg : Config) (ora : Oracle)
    (h : pyTruthy cfg.repoUrl = true) :
    ∃ u, get_authenticated_repo_url cfg ora = Except.ok u := by
  rcases ht : pyTruthy cfg.githubToken
  · refine ⟨cfg.repoUrl.getD "", ?_⟩
    simp [get_authenticated_repo_url, h, ht]
  · refine ⟨"https://" ++ cfg.githubUsername.getD "None" ++ ":"
      ++ cfg.githubToken.getD "" ++ "@" ++ ora.netloc (cfg.repoUrl.getD "")
      ++ ora.urlpath (cfg.repoUrl.getD ""), ?_⟩
    simp [get_authenticated_repo_url, h, ht]

theorem clone_or_pull_no_raise (cfg : Config) (ora : Oracle) (fs : List String)
    (hmk : ora.mkdirOk cfg.syncDirectory = true) :
    ∃ b fs2, clone_or_pull_repository cfg ora fs = (Except.ok b, fs2) := by
  rcases hrepo : pyTruthy cfg.repoUrl
  · exact ⟨false, fs, by simp [clone_or_pull_repository, hrepo]⟩
  · rcases hc : configure_git_credentials cfg ora.exec fs with ⟨b1, fs1⟩
    obtain ⟨u, hu⟩ := get_authenticated_repo_url_ok cfg ora hrepo
    by_cases hm : gitMarker cfg.syncDirectory ∈ insertPath cfg.syncDirectory fs1
    · rcases hr : run_command ora.exec "git pull" (some cfg.syncDirectory) false
          (insertPath cfg.syncDirectory fs1) with ⟨res, fs3⟩
      cases res with
      | ok s =>
        exact ⟨true, fs3, by
          simp [clone_or_pull_repository, hrepo, hc, ensure_directory, hmk, hu, hm, hr]⟩
      | error e =>
        exact ⟨false, fs3, by
          simp [clone_or_pull_repository, hrepo, hc, ensure_directory, hmk, hu, hm, hr]⟩
    · rcases hr : run_command ora.exec ("git clone " ++ u ++ " .")
          (some cfg.syncDirectory) false
          (insertPath cfg.syncDirectory fs1) with ⟨res, fs3⟩
      cases res with
      | ok s =>
        exact ⟨true, fs3, by
          simp [clone_or_pull_repository, hrepo, hc, ensure_directory, hmk, hu, hm, hr]⟩
      | error e =>
        exact ⟨false, fs3, by
          simp [clone_or_pull_repository, hrepo, hc, ensure_directory, hmk, hu, hm, hr]⟩

theorem mirrorPhase_no_raise (cfg : Config) (ora : Oracle) (fs : List String)
    (hmk : ora.mkdirOk cfg.syncDirectory = true) :
    ∃ b fs2, mirrorPhase cfg ora fs = (Except.ok b, fs2) := by
  obtain ⟨b, fs2, hcp⟩ :=
    clone_or_pull_no_raise cfg ora (insertPath cfg.syncDirectory fs) hmk
  exact ⟨b, fs2, by simp [mirrorPhase, ensure_directory, hmk, hcp]⟩

end Sync

namespace Sync

/-! ### C4: failing pull on an existing mirror -/

/-- C4: with a configured repository URL, an existing valid mirror (the
`.git` marker is present), a creatable directory, a shell that never removes
paths, and a `git pull` that always exits non-zero, `sync()` returns `false`
and every previously present path is still present afterwards: the program
only ever inserts paths and runs the update in place, it never deletes or
recreates the directory. -/
theorem c4_pull_failure_preserves (cfg : Config) (ora : Oracle) (fs : List String)
    (hrepo : pyTruthy cfg.repoUrl = true)
    (hmk : ora.mkdirOk cfg.syncDirectory = true)
    (hpres : ExecPreserves ora.exec)
    (hpull : ∀ f, ((ora.exec "git pull" (some cfg.syncDirectory) f).1).exitCode ≠ 0)
    (hgit : gitMarker cfg.syncDirectory ∈ fs) :
    (clone_or_pull_repository cfg ora fs).1 = Except.ok false ∧
    ∀ p ∈ fs, p ∈ (clone_or_pull_repository cfg ora fs).2 := by
  rcases hc : configure_git_credentials cfg ora.exec fs with ⟨b1, fs1⟩
  have hfs1 : ∀ p ∈ fs, p ∈ fs1 := by
    intro p hp
    have h := configure_preserves cfg ora.exec hpres fs p hp
    rw [hc] at h
    exact h
  have hfs2 : ∀ p ∈ fs, p ∈ insertPath cfg.syncDirectory fs1 :=
    fun p hp => insertPath_mem _ _ _ (hfs1 p hp)
  have hm : gitMarker cfg.syncDirectory ∈ insertPath cfg.syncDirectory fs1 :=
    hfs2 _ hgit
  obtain ⟨u, hu⟩ := get_authenticated_repo_url_ok cfg ora hrepo
  rcases hr : ora.exec "git pull" (some cfg.syncDirectory)
      (insertPath cfg.syncDirectory fs1) with ⟨res, fs3⟩
  have hne : res.exitCode ≠ 0 := by
    have h := hpull (insertPath cfg.syncDirectory fs1)
    rw [hr] at h
    exact h
  have hrc : run_command ora.exec "git pull" (some cfg.syncDirectory) false
      (insertPath cfg.syncDirectory fs1) =
      (Except.error ⟨"git pull", res.exitCode, res.stderr⟩, fs3) := by
    simp [run_command, hr, hne]
  have hcp : clone_or_pull_repository cfg ora fs = (Except.ok false, fs3) := by
    simp [clone_or_pull_repository, hrepo, hc, ensure_directory, hmk, hu, hm, hrc]
  refine ⟨by rw [hcp], ?_⟩
  intro p hp
  rw [hcp]
  have h := hpres "git pull" (some cfg.syncDirectory)
    (insertPath cfg.syncDirectory fs1) p (hfs2 p hp)
  rw [hr] at h
  exact h

/-- Configuration for the C4 witness: a repository URL is set. -/
def cfgC4 : Config := { cfgBase with repoUrl := some "https://github.com/o/r.git" }

/-- Oracle for the C4 witness: `git pull` always fails, every other command
succeeds, and no command touches the filesystem. -/
def oraC4 : Oracle :=
  { oraBase with
    exec := fun c _ f =>
      (if c == "git pull" then ⟨1, "", "merge failed"⟩ else ⟨0, "", ""⟩, f) }

/-- Filesystem for the C4 witness: a valid mirror with one content file. -/
def fsC4 : List String := ["/app/data", "/app/data/.git", "/app/data/a.md"]

/-- C4 witness: the theorem at a concrete failing pull — `sync()` reports
`false` and the pre-existing content file is still present. -/
theorem c4_witness :
    (clone_or_pull_repository cfgC4 oraC4 fsC4).1 = Except.ok false ∧
    "/app/data/a.md" ∈ (clone_or_pull_repository cfgC4 oraC4 fsC4).2 := by
  have h := c4_pull_failure_preserves cfgC4 oraC4 fsC4 (by decide) rfl
    (fun c w f p hp => hp) (fun f => Nat.one_ne_zero) (by decide)
  exact ⟨h.1, h.2 "/app/data/a.md" (by decide)⟩

/-! ### C7: exceptions during credential configuration and URL construction -/

/-- Configuration for the C7 counterexample: repository URL and both
credentials are set. -/
def cfgC7 : Config :=
  { cfgBase with
    repoUrl := some "https://github.com/o/r.git"
    githubUsername := some "u"
    githubToken := some "t" }

/-- Oracle for the C7 counterexample: the `git config` commands fail (raising
`CalledProcessError` inside `configure_git_credentials`) while `git pull`
succeeds. -/
def oraC7 : Oracle :=
  { oraBase with
    exec := fun c _ f =>
      (if c == "git pull" then ⟨0, "", ""⟩ else ⟨1, "", "config failed"⟩, f) }

/-- Filesystem for the C7 counterexample: an existing valid mirror. -/
def fsC7 : List String := ["/app/data", "/app/data/.git"]

/-- C7 counterexample: an exception during credential configuration is caught
inside `configure_git_credentials` (which returns `false`), but it is NOT
converted to a false return of `sync()`: the boolean is ignored and
`clone_or_pull_repository` still returns `true` here. -/
theorem c7_counterexample :
    (configure_git_credentials cfgC7 oraC7.exec fsC7).1 = false ∧
    (clone_or_pull_repository cfgC7 oraC7 fsC7).1 = Except.ok true :=
  ⟨rfl, rfl⟩

/-- C7 (amended): `sync()` never propagates an exception raised during
credential configuration or authenticated-URL construction — whenever
directory creation succeeds the whole operation returns a boolean.
Credential-configuration failures are swallowed inside
`configure_git_credentials` (whose `false` return is ignored, so `sync()` may
still return `true`); a URL-construction failure would be caught by the
`try` in `sync()` and converted to a false return. -/
theorem c7_no_raise (cfg : Config) (ora : Oracle) (fs : List String)
    (hmk : ora.mkdirOk cfg.syncDirectory = true) :
    ∃ b fs2, clone_or_pull_repository cfg ora fs = (Except.ok b, fs2) :=
  clone_or_pull_no_raise cfg ora fs hmk

/-- C7 witness: the amended theorem at the counterexample's concrete inputs. -/
theorem c7_witness :
    ∃ b fs2, clone_or_pull_repository cfgC7 oraC7 fsC7 = (Except.ok b, fs2) :=
  c7_no_raise cfgC7 oraC7 fsC7 rfl

end Sync

namespace Sync

/-! ### C2: the uploaded-file counter -/

theorem countAccepted_cons (cfg : Config) (e : String × String)
    (rest : List (String × String)) :
    countAccepted cfg (e :: rest) =
      countAccepted cfg rest + (if acceptedEntry cfg e then 1 else 0) := by
  rcases h : acceptedEntry cfg e <;> simp [countAccepted, List.filter_cons, h]

theorem uploadLoop_count (cfg : Config) (ora : Oracle)
    (hok : ∀ p, (upload_to_webui cfg ora p).2 = Except.ok ()) :
    ∀ (entries : List (String × String)) (count : Nat),
      (uploadLoop cfg ora entries count).1 =
        Except.ok (count + countAccepted cfg entries) := by
  intro entries
  induction entries with
  | nil => intro count; simp [uploadLoop, countAccepted]
  | cons e rest ih =>
    intro count
    rcases e with ⟨root, name⟩
    rcases hg : strContains (joinPath root name) ".git"
    · rcases ha : is_allowed_extension cfg.allowedExtensions name
      · have hacc : acceptedEntry cfg (root, name) = false := by
          simp [acceptedEntry, hg, ha]
        simp [uploadLoop, hg, ha, ih, countAccepted_cons, hacc]
      · have hacc : acceptedEntry cfg (root, name) = true := by
          simp [acceptedEntry, hg, ha]
        rcases hu : upload_to_webui cfg ora (joinPath root name) with ⟨evs, r⟩
        have hr : r = Except.ok () := by
          have h := hok (joinPath root name)
          rw [hu] at h
          exact h
        subst hr
        rcases hrec : uploadLoop cfg ora rest (count + 1) with ⟨r2, evs2⟩
        have ih2 := ih (count + 1)
        rw [hrec] at ih2
        simp only [uploadLoop, hg, ha, hu, hrec, countAccepted_cons, hacc,
          if_true, Bool.false_eq_true, if_false]
        replace ih2 : r2 = Except.ok (count + 1 + countAccepted cfg rest) := ih2
        rw [ih2]
        congr 1
        omega
    · have hacc : acceptedEntry cfg (root, name) = false := by
        simp [acceptedEntry, hg]
      simp [uploadLoop, hg, ih, countAccepted_cons, hacc]

/-- C2 (amended): provided every upload returns without raising (per-file
transport and HTTP failures are swallowed inside `upload_to_webui`), a sync
cycle completes with `files_uploaded` equal to the number of walked entries
that pass the `.git` filter and the Extension Filter — attempts are counted,
not confirmed successes.  (When an upload does raise, e.g. `KeyError` on a
2xx body without `'id'`, the cycle aborts and the count is lost — see the
counterexample.) -/
theorem c2_counter_counts_attempts (cfg : Config) (ora : Oracle) (fs : List String)
    (hmk : ora.mkdirOk cfg.syncDirectory = true)
    (hok : ∀ p, (upload_to_webui cfg ora p).2 = Except.ok ()) :
    (sync_process cfg ora fs).result =
      Except.ok (countAccepted cfg
        (ora.walk (sync_process cfg ora fs).fsOut cfg.syncDirectory)) := by
  obtain ⟨b, fs2, hm⟩ := mirrorPhase_no_raise cfg ora fs hmk
  have hc := uploadLoop_count cfg ora hok (ora.walk fs2 cfg.syncDirectory) 0
  rcases hu : uploadLoop cfg ora (ora.walk fs2 cfg.syncDirectory) 0 with ⟨r, evs⟩
  rw [hu] at hc
  simp [sync_process, hm, hu]
  simpa using hc

/-- Oracle for the C2 counterexample: the walk yields one acceptable file and
its upload returns HTTP 200 with a JSON body lacking `'id'`. -/
def oraC2 : Oracle :=
  { oraBase with
    walk := fun _ _ => [("/app/data", "a.md")]
    postUpload := fun _ => UploadOutcome.resp ⟨200, true, none⟩ }

/-- C2 counterexample: one candidate is accepted by the Extension Filter, yet
the cycle does not complete with a counter of 1 — the upload raises
`KeyError` (2xx body without `'id'`), which is not swallowed, so the counter
is never incremented for that accepted candidate and the cycle aborts. -/
theorem c2_counterexample :
    countAccepted cfgBase (oraC2.walk ["/app/data"] cfgBase.syncDirectory) = 1 ∧
    (sync_process cfgBase oraC2 ["/app/data"]).result = Except.error Exn.keyError :=
  ⟨rfl, rfl⟩

/-- Oracle for the C2 witness: two walked files, one acceptable; its upload
succeeds end to end. -/
def oraC2w : Oracle :=
  { oraBase with
    walk := fun _ _ => [("/app/data", "a.md"), ("/app/data", "b.py")]
    postUpload := fun _ => UploadOutcome.resp ⟨200, true, some "xyz"⟩ }

/-- C2 witness: the amended theorem at a concrete all-successful cycle. -/
theorem c2_witness :
    (sync_process cfgBase oraC2w ["/app/data"]).result =
      Except.ok (countAccepted cfgBase
        (oraC2w.walk (sync_process cfgBase oraC2w ["/app/data"]).fsOut
          cfgBase.syncDirectory)) :=
  c2_counter_counts_attempts cfgBase oraC2w ["/app/data"] rfl (fun _ => rfl)

end Sync
